import Mathlib

/-!
# Verification of the wasmedge-rust-sdk host-function bridge

A shallow embedding of the host-function registration and dispatch bridge of
`wasmedge-sys` (files `src/instance/function.rs`, `src/instance/module.rs`)
and of the signature-rewriting macros (`wasmedge-macro/src/lib.rs`).

Modelling conventions:
* Machine integers (`usize`, `u32`, `u64`) are modelled as `Nat`; no arithmetic
  in the bridge ever overflows or wraps, so no modular reduction is needed.
* Raw pointers and native context addresses are modelled as `Nat`, with `0`
  playing the role of the null pointer.
* The opaque native engine (WasmEdge C API, `ffi::*`) is an external
  collaborator: each engine call's result (a context address, an export-name
  list) is passed in as a parameter of the embedded function.
* `HashMap`s (`HOST_FUNCS`, `ASYNC_HOST_FUNCS`, `HOST_FUNC_FOOTPRINTS`) are
  modelled as association lists with replace-on-insert semantics.
* The `rand::thread_rng` draws of the key-generation loop are modelled as an
  explicit list of candidate draws; the unbounded retry loop becomes a first
  fresh candidate search that reports `none` when the supplied draws are
  exhausted (the source loops forever in that event, which cannot happen with
  a random draw sequence over `usize`).
* Rust `panic!` / failed `assert!` (abort) is modelled by an explicit
  constructor or by `Option.none`, as noted at each definition.
-/

namespace WasmEdgeSys

/-- Association-list lookup, modelling `HashMap::get` on the key type `usize`. -/
def lookupAssoc {α : Type} : List (Nat × α) → Nat → Option α
  | [], _ => none
  | (k', v) :: rest, k => if k' = k then some v else lookupAssoc rest k

/-- Modelling `HashMap::contains_key`. -/
def containsKey {α : Type} (m : List (Nat × α)) (k : Nat) : Bool :=
  (lookupAssoc m k).isSome

/-- Association-list insert with replace-on-collision, modelling
`HashMap::insert`. -/
def insertAssoc {α : Type} (k : Nat) (v : α) : List (Nat × α) → List (Nat × α)
  | [] => [(k, v)]
  | (k', v') :: rest =>
    if k' = k then (k, v) :: rest else (k', v') :: insertAssoc k v rest

/-- Association-list removal, modelling `HashMap::remove`. -/
def removeAssoc {α : Type} (k : Nat) (m : List (Nat × α)) : List (Nat × α) :=
  m.filter (fun p => p.1 ≠ k)

/-- `wasmedge_types::error::HostFuncError`: the two error kinds a host closure
may report (`User(u32)` and `Runtime(u32)`). -/
inductive HostFuncError where
  | user (code : Nat)
  | runtime (code : Nat)
deriving DecidableEq, Repr

/-- `ffi::WasmEdge_ErrCategory`: the two error categories of the native
two-field result record. -/
inductive ErrCategory where
  | wasm
  | userLevelError
deriving DecidableEq, Repr

/-- The native result record (`ffi::WasmEdge_Result`).  `success` models the
literal `WasmEdge_Result { Code: 0 }`; `fail cat code` models the value built
by the engine entry point `WasmEdge_ResultGen(cat, code)` (per the spec's §6:
a two-field category/code record, code 0 meaning success). -/
inductive NativeResult where
  | success
  | fail (category : ErrCategory) (code : Nat)
deriving DecidableEq, Repr

/-- Outcome of one trampoline dispatch.  `ok result written` gives the native
result returned to the engine together with the values written into the
caller-allocated return buffer, in order (`[]` when the buffer is untouched).
`abort` models the failed `assert!` on the return-count check: the process
aborts, nothing is written, no result is produced. -/
inductive DispatchOutcome where
  | ok (result : NativeResult) (written : List Nat)
  | abort (expected actual : Nat)
deriving DecidableEq, Repr

/-- A boxed synchronous host closure (`BoxedFn`): takes the calling frame, the
decoded arguments and the raw user-data pointer.  Frames, values and data
pointers are opaque to the trampoline and modelled as `Nat`. -/
def HostClosure : Type := Nat → List Nat → Nat → Except HostFuncError (List Nat)

/-- A boxed asynchronous host closure as seen after `async_cx.block_on`
(`BoxedAsyncFn` driven to completion): the outer `Except Unit` models the
fiber driver's `Result` (error = suspension-driver failure), the inner value
is the closure's own result. -/
def AsyncHostClosure : Type :=
  Nat → List Nat → Nat → Except Unit (Except HostFuncError (List Nat))

/-- `wrap_fn` (function.rs, lines 31–87): the synchronous trampoline.
`hostFuncs` is the contents of the `HOST_FUNCS` registry at dispatch time,
`key` the opaque key recovered from `key_ptr`, `returnLen` the declared
return-slot count.  The decode of the argument buffer and the creation of the
return slice are value-marshaling steps with no branching and are absorbed
into the `input` parameter and the `written` component of the outcome. -/
def wrapFn (hostFuncs : List (Nat × HostClosure)) (key : Nat) (frame : Nat)
    (data : Nat) (input : List Nat) (returnLen : Nat) : DispatchOutcome :=
  match lookupAssoc hostFuncs key with
  | none => .ok (.fail .wasm 5) []
  | some realFn =>
    match realFn frame input data with
    | .ok rets =>
      if rets.length = returnLen then .ok .success rets
      else .abort returnLen rets.length
    | .error (.user code) => .ok (.fail .userLevelError code) []
    | .error (.runtime code) => .ok (.fail .wasm code) []

/-- `wrap_async_fn` (function.rs, lines 91–160): the asynchronous trampoline.
Identical to `wrapFn` except that the closure's boxed future is driven by
`async_cx.block_on`; a driver error is translated to `Runtime(0x07)` before
the shared result-parsing code runs. -/
def wrapAsyncFn (asyncHostFuncs : List (Nat × AsyncHostClosure)) (key : Nat)
    (frame : Nat) (data : Nat) (input : List Nat) (returnLen : Nat) :
    DispatchOutcome :=
  match lookupAssoc asyncHostFuncs key with
  | none => .ok (.fail .wasm 5) []
  | some realFn =>
    let result : Except HostFuncError (List Nat) :=
      match realFn frame input data with
      | .ok (.ok ret) => .ok ret
      | .ok (.error err) => .error err
      | .error _ => .error (.runtime 7)
    match result with
    | .ok rets =>
      if rets.length = returnLen then .ok .success rets
      else .abort returnLen rets.length
    | .error (.user code) => .ok (.fail .userLevelError code) []
    | .error (.runtime code) => .ok (.fail .wasm code) []

/-- `wasmedge_types::error::FuncError` (the variants this bridge produces). -/
inductive FuncError where
  | create
  | type
deriving DecidableEq, Repr

/-- `wasmedge_types::error::InstanceError` (the variants this bridge produces). -/
inductive InstanceError where
  | notFoundFunc (name : String)
  | createImportModule
deriving DecidableEq, Repr

/-- `wasmedge_types::error::WasmEdgeError` (the variants this bridge produces). -/
inductive WasmEdgeError where
  | func (e : FuncError)
  | instanceErr (e : InstanceError)
  | funcTypeCreate
deriving DecidableEq, Repr

/-- The process-wide bridge state: the `HOST_FUNCS` and `ASYNC_HOST_FUNCS`
closure registries (key → closure, the closure identity abstracted to a `Nat`
id since only registry membership matters for the lifecycle claims) and the
`HOST_FUNC_FOOTPRINTS` table (native context address → key). -/
structure BridgeState where
  hostFuncs : List (Nat × Nat)
  asyncHostFuncs : List (Nat × Nat)
  footprints : List (Nat × Nat)
deriving DecidableEq, Repr

/-- The empty bridge state (process start: all three containers empty). -/
def emptyBridge : BridgeState := ⟨[], [], []⟩

/-- The key-generation loop of `Function::create_with_data` /
`ImportModule::add_func_new`:
`let mut key = rng.gen(); while map.contains_key(&key) { key = rng.gen() }`.
`draws` is the sequence of random draws; the result is the first draw absent
from the map, `none` when the supplied draws are exhausted (the source would
keep drawing). -/
def genKey (draws : List Nat) (m : List (Nat × Nat)) : Option Nat :=
  match draws with
  | [] => none
  | d :: ds => if containsKey m d then genKey ds m else some d

/-- `Function` (function.rs, lines 166–170): an ownership-tracked wrapper
around a native function context.  `ctx` is the address held by the shared
`InnerFunc` (0 = null); `count` is tracked separately (it is the state of the
shared `Arc`, not of any one clone).  Lookup-built handles
(`Instance::get_func`, module.rs lines 81–84) construct the struct without
the `data_owner` field; such handles never reach the branch of `drop` that
reads it, and are modelled with `dataOwner := false`. -/
structure Function where
  ctx : Nat
  registered : Bool
  dataOwner : Bool
deriving DecidableEq, Repr

/-- `Function::create_with_data` (function.rs, lines 263–302), which also
carries `Function::create_sync_func` (the two-line wrapper computing
`data`/`data_owner` from the `Option<Box<T>>`).  `engineCtx` is the address
returned by the engine call `WasmEdge_FunctionInstanceCreateBinding`
(0 = null = creation failure); `realFn` the closure id.  Source order:
take the `HOST_FUNCS` write lock, generate a fresh key, insert, release;
call the engine; insert the footprint; only then check the context for null.
`none` models exhaustion of the key draws (unbounded retry in the source). -/
def Function.create_with_data (draws : List Nat) (engineCtx : Nat)
    (realFn : Nat) (dataOwner : Bool) (st : BridgeState) :
    Option (BridgeState × Except WasmEdgeError Function) :=
  match genKey draws st.hostFuncs with
  | none => none
  | some key =>
    let hostFuncs := insertAssoc key realFn st.hostFuncs
    let footprint := engineCtx
    let footprints := insertAssoc footprint key st.footprints
    let st' := { st with hostFuncs := hostFuncs, footprints := footprints }
    if engineCtx = 0 then
      some (st', .error (.func .create))
    else
      some (st', .ok { ctx := engineCtx, registered := false,
                       dataOwner := dataOwner })

/-- The observable effect of one `Function::drop` call: the bridge state
afterwards, whether the owned user data was reclaimed
(`Box::from_raw(...GetData(...))`), and whether the native context was
deleted (`WasmEdge_FunctionInstanceDelete`). -/
structure DropEffect where
  st : BridgeState
  freedData : Bool
  deletedCtx : Bool
deriving DecidableEq, Repr

/-- `Function::drop` (function.rs, lines 497–541).  `count` is
`Arc::strong_count(&self.inner)` at the moment of the drop.  Teardown runs
only for an unregistered handle whose count is exactly 1: remove the
footprint entry (panic — modelled as `none` — if absent), remove the key from
`HOST_FUNCS` and `ASYNC_HOST_FUNCS` (each guarded by `contains_key`), free
the user data if owned, and delete the context if non-null.  Every other drop
only lets the `Arc` count decrease. -/
def Function.drop (h : Function) (count : Nat) (st : BridgeState) :
    Option DropEffect :=
  if h.registered = false ∧ count = 1 then
    let footprint := h.ctx
    match lookupAssoc st.footprints footprint with
    | some key =>
      let footprints := removeAssoc footprint st.footprints
      let hostFuncs :=
        if containsKey st.hostFuncs key then removeAssoc key st.hostFuncs
        else st.hostFuncs
      let asyncHostFuncs :=
        if containsKey st.asyncHostFuncs key then
          removeAssoc key st.asyncHostFuncs
        else st.asyncHostFuncs
      let stAfter : BridgeState :=
        { hostFuncs := hostFuncs, asyncHostFuncs := asyncHostFuncs,
          footprints := footprints }
      some { st := stAfter, freedData := h.dataOwner,
             deletedCtx := h.ctx != 0 }
    | none => none
  else
    some { st := st, freedData := false, deletedCtx := false }

/-- `Function::clone` (function.rs, lines 542–550): all flags are copied and
the shared `Arc` is cloned (count increment tracked by the caller). -/
def Function.clone (h : Function) : Function :=
  { ctx := h.ctx, registered := h.registered, dataOwner := h.dataOwner }

/-- `Instance::get_func` (module.rs, lines 69–86).  `findCtx` is the address
returned by the engine call `WasmEdge_ModuleInstanceFindFunction` (0 = null =
not found).  A found function is wrapped with `registered: true` (the source
literal sets no `data_owner`; see `Function`). -/
def Instance.get_func (findCtx : Nat) (name : String) :
    Except WasmEdgeError Function :=
  if findCtx = 0 then
    .error (.instanceErr (.notFoundFunc name))
  else
    .ok { ctx := findCtx, registered := true, dataOwner := false }

/-- `ImportModule<T>` (module.rs, lines 397–404), reduced to the parts the
claims touch: the native context and the owned list of function handles. -/
structure ImportModule where
  ctx : Nat
  registered : Bool
  name : String
  funcs : List Function
deriving DecidableEq, Repr

/-- `ImportModule::add_func_new` (module.rs, lines 464–530).  Performs the
same registration sequence as `Function.create_with_data` (write-lock the
registry, generate a fresh key, insert, release, call the engine, record the
footprint, then null-check), then pushes the new unregistered handle onto the
owned list and asks the engine to bind it under `name` (an engine call with
no host-visible state change). -/
def ImportModule.add_func_new (m : ImportModule) (name : String)
    (draws : List Nat) (engineCtx : Nat) (realFn : Nat) (st : BridgeState) :
    Option (BridgeState × Except WasmEdgeError ImportModule) :=
  match genKey draws st.hostFuncs with
  | none => none
  | some key =>
    let hostFuncs := insertAssoc key realFn st.hostFuncs
    let footprint := engineCtx
    let footprints := insertAssoc footprint key st.footprints
    let st' := { st with hostFuncs := hostFuncs, footprints := footprints }
    if engineCtx = 0 then
      some (st', .error (.func .create))
    else
      let f : Function :=
        { ctx := engineCtx, registered := false, dataOwner := false }
      some (st', .ok { m with funcs := m.funcs ++ [f] })

/-- A serialized sequence of registrations against `HOST_FUNCS` (the write
lock held across each check-then-insert makes any concurrent execution
equivalent to some such sequence).  Each job is a draw sequence and a closure
id; the result is the final map and the keys handed out, in order. -/
def registerMany : List (List Nat × Nat) → List (Nat × Nat) →
    Option (List (Nat × Nat) × List Nat)
  | [], m => some (m, [])
  | (draws, realFn) :: rest, m =>
    match genKey draws m with
    | none => none
    | some k =>
      match registerMany rest (insertAssoc k realFn m) with
      | none => none
      | some (m', ks) => some (m', k :: ks)

/-- Events on the registry locks and the per-closure lock, for the temporal
claims about registration and dispatch. -/
inductive LockEvent where
  | acquireRead
  | releaseRead
  | acquireWrite
  | releaseWrite
  | checkKey (k : Nat)
  | insertKey (k : Nat)
  | lookupKey (k : Nat)
  | acquireClosureLock
  | invokeClosure
  | releaseClosureLock
deriving DecidableEq, Repr

/-- The registry events of the key-generation loop: one `contains_key` check
per draw, and the `insert` of the first fresh draw. -/
def genKeyTrace (draws : List Nat) (m : List (Nat × Nat)) : List LockEvent :=
  match draws with
  | [] => []
  | d :: ds =>
    if containsKey m d then .checkKey d :: genKeyTrace ds m
    else [.checkKey d, .insertKey d]

/-- The `HOST_FUNCS` lock/registry event trace of
`Function::create_with_data` (lines 270–279): `HOST_FUNCS.write()`, the
check-then-insert loop, `drop(map_host_func)`.  (The later
`HOST_FUNC_FOOTPRINTS.lock()` is a different mutex and is omitted.) -/
def createWithDataTrace (draws : List Nat) (m : List (Nat × Nat)) :
    List LockEvent :=
  .acquireWrite :: genKeyTrace draws m ++ [.releaseWrite]

/-- The `HOST_FUNCS` lock/registry event trace of
`ImportModule::add_func_new` (lines 478–487): textually the same sequence as
`createWithDataTrace`. -/
def addFuncNewTrace (draws : List Nat) (m : List (Nat × Nat)) :
    List LockEvent :=
  .acquireWrite :: genKeyTrace draws m ++ [.releaseWrite]

/-- The `HOST_FUNCS`-lock event trace of `wrap_fn` (lines 60–68) on the
branch where the key is found: `HOST_FUNCS.read()`, `map.get(&key)`,
`real_fn.lock()`, `drop(map_host_func)`, `real_fn_locked(frame, input,
data)`, and the closure-lock guard released at end of scope. -/
def wrapFnHitTrace (k : Nat) : List LockEvent :=
  [.acquireRead, .lookupKey k, .acquireClosureLock, .releaseRead,
   .invokeClosure, .releaseClosureLock]

/-- The `ASYNC_HOST_FUNCS`-lock event trace of `wrap_async_fn` (lines
121–132) on the branch where the key is found: the same order as
`wrapFnHitTrace`. -/
def wrapAsyncFnHitTrace (k : Nat) : List LockEvent :=
  [.acquireRead, .lookupKey k, .acquireClosureLock, .releaseRead,
   .invokeClosure, .releaseClosureLock]

/-- Index of the first occurrence of an event in a trace (length of the
trace when absent); used to state ordering properties of the lock traces. -/
def firstIdx : List LockEvent → LockEvent → Nat
  | [], _ => 0
  | e :: rest, a => if e = a then 0 else firstIdx rest a + 1

/-- One user-visible operation on a group of `Function` clones sharing one
`Arc<Mutex<InnerFunc>>`: `cloneOp` is `Function::clone` (strong count + 1),
`dropOp` is `Function::drop` on one clone (runs the drop body at the current
strong count, after which the count decreases by 1). -/
inductive HandleOp where
  | cloneOp
  | dropOp
deriving DecidableEq, Repr

/-- Run a sequence of clone/drop operations on a handle group, threading the
`Arc` strong count and the bridge state; `none` propagates a panic inside
`Function::drop`. -/
def runOps (h : Function) : List HandleOp → Nat × BridgeState →
    Option (Nat × BridgeState)
  | [], s => some s
  | .cloneOp :: rest, (n, st) => runOps h rest (n + 1, st)
  | .dropOp :: rest, (n, st) =>
    match Function.drop h n st with
    | none => none
    | some eff => runOps h rest (n - 1, eff.st)

/-- An exported-names view of `Instance` (module.rs, lines 29–32): the
export-name lists of the underlying native module instance, one per kind, as
reported by the engine's list entry points. -/
structure Instance where
  funcExports : List String
  tableExports : List String
  memExports : List String
  globalExports : List String
deriving DecidableEq, Repr

/-- `Instance::func_len` (module.rs, lines 173–175):
`WasmEdge_ModuleInstanceListFunctionLength`, i.e. the number of exported
functions. -/
def Instance.func_len (inst : Instance) : Nat := inst.funcExports.length

/-- `Instance::func_names` (module.rs, lines 178–200): when the length is
positive, build a vector of exactly that many names via
`WasmEdge_ModuleInstanceListFunction` and return `Some`; otherwise `None`. -/
def Instance.func_names (inst : Instance) : Option (List String) :=
  if inst.func_len > 0 then some inst.funcExports else none

/-- `Instance::table_len` (module.rs, lines 203–205). -/
def Instance.table_len (inst : Instance) : Nat := inst.tableExports.length

/-- `Instance::table_names` (module.rs, lines 208–230). -/
def Instance.table_names (inst : Instance) : Option (List String) :=
  if inst.table_len > 0 then some inst.tableExports else none

/-- `Instance::mem_len` (module.rs, lines 233–235). -/
def Instance.mem_len (inst : Instance) : Nat := inst.memExports.length

/-- `Instance::mem_names` (module.rs, lines 238–260). -/
def Instance.mem_names (inst : Instance) : Option (List String) :=
  if inst.mem_len > 0 then some inst.memExports else none

/-- `Instance::global_len` (module.rs, lines 263–265). -/
def Instance.global_len (inst : Instance) : Nat := inst.globalExports.length

/-- `Instance::global_names` (module.rs, lines 268–290). -/
def Instance.global_names (inst : Instance) : Option (List String) :=
  if inst.global_len > 0 then some inst.globalExports else none

/-- An exported-names view of `WasiModule` (module.rs, lines 757–761), whose
`AsInstance` implementation (lines 1022–1140) repeats the enumeration code of
`Instance` verbatim. -/
structure WasiModule where
  funcExports : List String
  tableExports : List String
  memExports : List String
  globalExports : List String
deriving DecidableEq, Repr

/-- `<WasiModule as AsInstance>::func_len` (module.rs, lines 1023–1025). -/
def WasiModule.func_len (m : WasiModule) : Nat := m.funcExports.length

/-- `<WasiModule as AsInstance>::func_names` (module.rs, lines 1028–1050). -/
def WasiModule.func_names (m : WasiModule) : Option (List String) :=
  if m.func_len > 0 then some m.funcExports else none

/-- `<WasiModule as AsInstance>::table_len` (module.rs, lines 1053–1055). -/
def WasiModule.table_len (m : WasiModule) : Nat := m.tableExports.length

/-- `<WasiModule as AsInstance>::table_names` (module.rs, lines 1058–1080). -/
def WasiModule.table_names (m : WasiModule) : Option (List String) :=
  if m.table_len > 0 then some m.tableExports else none

/-- `<WasiModule as AsInstance>::mem_len` (module.rs, lines 1083–1085). -/
def WasiModule.mem_len (m : WasiModule) : Nat := m.memExports.length

/-- `<WasiModule as AsInstance>::mem_names` (module.rs, lines 1088–1110). -/
def WasiModule.mem_names (m : WasiModule) : Option (List String) :=
  if m.mem_len > 0 then some m.memExports else none

/-- `<WasiModule as AsInstance>::global_len` (module.rs, lines 1113–1115). -/
def WasiModule.global_len (m : WasiModule) : Nat := m.globalExports.length

/-- `<WasiModule as AsInstance>::global_names` (module.rs, lines 1118–1140). -/
def WasiModule.global_names (m : WasiModule) : Option (List String) :=
  if m.global_len > 0 then some m.globalExports else none

end WasmEdgeSys

namespace WasmEdgeMacro

/-!
Embedding of the signature rewriter (`wasmedge-macro/src/lib.rs`): the
fragment of the `syn` type AST that `expand_host_func` and
`sys_expand_host_func` inspect, and the shape of the token stream each one
generates.
-/

mutual
/-- The fragment of `syn::Type` the rewriter matches on. -/
inductive RsTy where
  | reference (elem : RsTy)
  | path (segments : List PathSegment)
  | otherTy
/-- A `syn::PathSegment`: an identifier plus its path arguments. -/
inductive PathSegment where
  | mk (ident : String) (args : PathArgs)
/-- `syn::PathArguments`. -/
inductive PathArgs where
  | noArgs
  | angleBracketed (args : List GenericArg)
  | parenthesized
/-- `syn::GenericArgument`: a type argument or any other kind. -/
inductive GenericArg where
  | typeArg (t : RsTy)
  | otherArg
end

/-- A user function declaration as the rewriter sees it: the list of its
parameter types (`item_fn.sig.inputs`; every parameter of a host function is
a typed pattern, never a receiver). -/
structure FnDecl where
  params : List RsTy

/-- The shape of the wrapper a rewriter emits.  `fixedWrapper d` is the
generated `(frame, args, data)` wrapper: `d = none` means the raw data
pointer is ignored (2-parameter form), `d = some t` means it is reinterpreted
as `*mut t` and mutably dereferenced before forwarding.  `passthrough` is
`sys_expand_host_func`'s output: the declaration re-emitted unchanged. -/
inductive Wrapper where
  | fixedWrapper (dataDeref : Option RsTy)
  | passthrough

/-- The third-parameter type analysis shared verbatim by `expand_host_func`
(lib.rs, lines 75–123) and `sys_expand_host_func_new` (lines 387–435): a
reference type `&T` / `&mut T` yields `*mut T`; a path type must be
`Option<...>` whose last angle-bracketed argument is a reference `&T` /
`&mut T`, yielding `*mut T`; everything else panics (a build-time abort,
modelled as `Except.error` with the panic message). -/
def extractDataPtrTy (ty : RsTy) : Except String RsTy :=
  match ty with
  | .reference elem => .ok elem
  | .path segments =>
    match segments.getLast? with
    | some (.mk ident args) =>
      if ident = "Option" then
        match args with
        | .angleBracketed gargs =>
          match gargs.getLast? with
          | some (.typeArg (.reference elem)) => .ok elem
          | some (.typeArg _) => .error "Not found syn::Type::Reference"
          | some .otherArg => .error "Not found syn::GenericArgument::Type"
          | none => .error "Not found the last GenericArgument"
        | _ => .error "Not found syn::PathArguments::AngleBracketed"
      else .error "Not found segment ident: Option"
    | none => .error "Not found path segments"
  | .otherTy => .error "Unsupported syn::Type type"

/-- `expand_host_func` (lib.rs, lines 29–146), the rewriter behind
`#[host_function]`: a 2-parameter declaration yields the fixed wrapper that
ignores the data pointer; a 3-parameter declaration yields the fixed wrapper
dereferencing the data pointer at the type extracted from the last parameter;
any other parameter count panics. -/
def expand_host_func (f : FnDecl) : Except String Wrapper :=
  match f.params with
  | [_, _] => .ok (.fixedWrapper none)
  | [_, _, dataTy] =>
    match extractDataPtrTy dataTy with
    | .ok t => .ok (.fixedWrapper (some t))
    | .error e => .error e
  | _ => .error "Invalid numbers of host function arguments"

/-- `sys_expand_host_func` (lib.rs, lines 237–265), the rewriter behind
`#[sys_host_function]`: a 3-parameter declaration is re-emitted unchanged
(no data-pointer handling, no shape check on any parameter type); any other
parameter count panics. -/
def sys_expand_host_func (f : FnDecl) : Except String Wrapper :=
  match f.params with
  | [_, _, _] => .ok .passthrough
  | _ => .error "Invalid numbers of host function arguments"

end WasmEdgeMacro

namespace WasmEdgeSys

/-! ### Registry container lemmas -/

theorem lookupAssoc_cons {α : Type} (k0 : Nat) (v0 : α) (rest : List (Nat × α))
    (k : Nat) :
    lookupAssoc ((k0, v0) :: rest) k =
      if k0 = k then some v0 else lookupAssoc rest k := rfl

theorem insertAssoc_cons {α : Type} (k : Nat) (v : α) (k0 : Nat) (v0 : α)
    (rest : List (Nat × α)) :
    insertAssoc k v ((k0, v0) :: rest) =
      if k0 = k then (k, v) :: rest else (k0, v0) :: insertAssoc k v rest := rfl

theorem removeAssoc_cons {α : Type} (k k0 : Nat) (v0 : α)
    (rest : List (Nat × α)) :
    removeAssoc k ((k0, v0) :: rest) =
      if k0 = k then removeAssoc k rest else (k0, v0) :: removeAssoc k rest := by
  simp only [removeAssoc, List.filter_cons]
  split_ifs with h1 h2 <;> simp_all

theorem lookupAssoc_insertAssoc {α : Type} (m : List (Nat × α)) (k : Nat)
    (v : α) (k' : Nat) :
    lookupAssoc (insertAssoc k v m) k' =
      if k = k' then some v else lookupAssoc m k' := by
  induction m with
  | nil => simp [insertAssoc, lookupAssoc]
  | cons p rest ih =>
    obtain ⟨k0, v0⟩ := p
    by_cases h0 : k0 = k <;> by_cases h1 : k = k' <;> by_cases h2 : k0 = k' <;>
      simp_all [insertAssoc_cons, lookupAssoc_cons, ih]

theorem containsKey_insertAssoc {α : Type} (m : List (Nat × α)) (k : Nat)
    (v : α) (k' : Nat) :
    containsKey (insertAssoc k v m) k' =
      if k = k' then true else containsKey m k' := by
  simp only [containsKey, lookupAssoc_insertAssoc]
  split <;> simp

theorem lookupAssoc_removeAssoc {α : Type} (m : List (Nat × α)) (k k' : Nat) :
    lookupAssoc (removeAssoc k m) k' =
      if k = k' then none else lookupAssoc m k' := by
  induction m with
  | nil => simp [removeAssoc, lookupAssoc]
  | cons p rest ih =>
    obtain ⟨k0, v0⟩ := p
    by_cases h0 : k0 = k <;> by_cases h1 : k = k' <;> by_cases h2 : k0 = k' <;>
      simp_all [removeAssoc_cons, lookupAssoc_cons, ih]

theorem containsKey_removeAssoc {α : Type} (m : List (Nat × α)) (k k' : Nat) :
    containsKey (removeAssoc k m) k' =
      if k = k' then false else containsKey m k' := by
  simp only [containsKey, lookupAssoc_removeAssoc]
  split <;> simp

theorem length_insertAssoc_fresh {α : Type} (m : List (Nat × α)) (k : Nat)
    (v : α) (h : containsKey m k = false) :
    (insertAssoc k v m).length = m.length + 1 := by
  induction m with
  | nil => simp [insertAssoc]
  | cons p rest ih =>
    obtain ⟨k0, v0⟩ := p
    simp only [containsKey, lookupAssoc_cons] at h
    by_cases h0 : k0 = k
    · simp [h0] at h
    · rw [insertAssoc_cons, if_neg h0]
      simp only [List.length_cons]
      rw [ih]
      simpa [containsKey, h0] using h

/-! ### Key-generation lemmas -/

theorem genKey_fresh (draws : List Nat) (m : List (Nat × Nat)) (k : Nat)
    (h : genKey draws m = some k) : containsKey m k = false := by
  induction draws with
  | nil => simp [genKey] at h
  | cons d ds ih =>
    simp only [genKey] at h
    by_cases hc : containsKey m d = true
    · exact ih (by simpa [hc] using h)
    · simp [hc] at h
      subst h
      simpa using hc

theorem genKeyTrace_keyOps (draws : List Nat) (m : List (Nat × Nat)) :
    ∀ e ∈ genKeyTrace draws m,
      (∃ k, e = LockEvent.checkKey k) ∨ (∃ k, e = LockEvent.insertKey k) := by
  induction draws with
  | nil => simp [genKeyTrace]
  | cons d ds ih =>
    intro e he
    simp only [genKeyTrace] at he
    by_cases hc : containsKey m d = true
    · rw [if_pos hc] at he
      rcases List.mem_cons.mp he with h | h
      · exact Or.inl ⟨d, h⟩
      · exact ih e h
    · rw [if_neg hc] at he
      rcases List.mem_cons.mp he with h | h
      · exact Or.inl ⟨d, h⟩
      · rcases List.mem_singleton.mp h with h'
        exact Or.inr ⟨d, h'⟩

theorem registerMany_spec (jobs : List (List Nat × Nat)) :
    ∀ (m m' : List (Nat × Nat)) (ks : List Nat),
      registerMany jobs m = some (m', ks) →
      (∀ k ∈ ks, containsKey m k = false) ∧
      ks.Pairwise (· ≠ ·) ∧
      (∀ k ∈ ks, containsKey m' k = true) ∧
      (∀ k, containsKey m k = true → containsKey m' k = true) := by
  induction jobs with
  | nil =>
    intro m m' ks h
    simp only [registerMany, Option.some.injEq, Prod.mk.injEq] at h
    obtain ⟨h1, h2⟩ := h
    subst h1; subst h2
    simp
  | cons job rest ih =>
    intro m m' ks h
    obtain ⟨draws, realFn⟩ := job
    simp only [registerMany] at h
    cases hg : genKey draws m with
    | none => simp [hg] at h
    | some k =>
      simp only [hg] at h
      cases hr : registerMany rest (insertAssoc k realFn m) with
      | none => simp [hr] at h
      | some p =>
        obtain ⟨m'', ks'⟩ := p
        simp only [hr, Option.some.injEq, Prod.mk.injEq] at h
        obtain ⟨h1, h2⟩ := h
        subst h1; subst h2
        obtain ⟨ihFresh, ihPw, ihMem, ihMono⟩ := ih _ _ _ hr
        have hkFresh : containsKey m k = false := genKey_fresh _ _ _ hg
        refine ⟨?_, ?_, ?_, ?_⟩
        · intro k' hk'
          rcases List.mem_cons.mp hk' with h' | h'
          · subst h'; exact hkFresh
          · have := ihFresh k' h'
            rw [containsKey_insertAssoc] at this
            by_cases he : k = k'
            · simp [he] at this
            · simpa [he] using this
        · refine List.pairwise_cons.mpr ⟨?_, ihPw⟩
          intro k' hk'
          have := ihFresh k' hk'
          rw [containsKey_insertAssoc] at this
          intro he
          simp [he] at this
        · intro k' hk'
          rcases List.mem_cons.mp hk' with h' | h'
          · subst h'
            exact ihMono _ (by rw [containsKey_insertAssoc]; simp)
          · exact ihMem k' h'
        · intro k' hk'
          exact ihMono k' (by rw [containsKey_insertAssoc]; split <;> simp [hk'])

end WasmEdgeSys

namespace WasmEdgeSys

/-! ### Claim theorems: trampoline dispatch -/

/-- C3: invoking either trampoline (`wrap_fn`, `wrap_async_fn`) with a key
absent from its closure registry returns the native result with category WASM
and code 5, invokes no closure, writes nothing to the return buffer, and does
not abort. -/
theorem wrap_fn_dispatch_miss
    (hostFuncs : List (Nat × HostClosure))
    (asyncHostFuncs : List (Nat × AsyncHostClosure))
    (key frame data : Nat) (input : List Nat) (returnLen : Nat) :
    (lookupAssoc hostFuncs key = none →
      wrapFn hostFuncs key frame data input returnLen
        = .ok (.fail .wasm 5) []) ∧
    (lookupAssoc asyncHostFuncs key = none →
      wrapAsyncFn asyncHostFuncs key frame data input returnLen
        = .ok (.fail .wasm 5) []) := by
  constructor
  · intro h
    simp [wrapFn, h]
  · intro h
    simp [wrapAsyncFn, h]

/-- Witness for C3: dispatch against the empty registries. -/
theorem wrap_fn_dispatch_miss_witness :
    wrapFn [] 42 0 0 [1, 2] 1 = .ok (.fail .wasm 5) [] ∧
    wrapAsyncFn [] 42 0 0 [1, 2] 1 = .ok (.fail .wasm 5) [] :=
  ⟨(wrap_fn_dispatch_miss [] [] 42 0 0 [1, 2] 1).1 rfl,
   (wrap_fn_dispatch_miss [] [] 42 0 0 [1, 2] 1).2 rfl⟩

/-- C4: both trampolines translate a closure-reported error kind exactly:
`HostFuncError::User(c)` becomes the native result (user-level category, c)
and `HostFuncError::Runtime(c)` becomes (WASM category, c). -/
theorem wrap_fn_error_translation
    (hostFuncs : List (Nat × HostClosure))
    (asyncHostFuncs : List (Nat × AsyncHostClosure))
    (key frame data : Nat) (input : List Nat) (returnLen : Nat)
    (f : HostClosure) (g : AsyncHostClosure) (code : Nat) :
    (lookupAssoc hostFuncs key = some f →
      (f frame input data = .error (.user code) →
        wrapFn hostFuncs key frame data input returnLen
          = .ok (.fail .userLevelError code) []) ∧
      (f frame input data = .error (.runtime code) →
        wrapFn hostFuncs key frame data input returnLen
          = .ok (.fail .wasm code) [])) ∧
    (lookupAssoc asyncHostFuncs key = some g →
      (g frame input data = .ok (.error (.user code)) →
        wrapAsyncFn asyncHostFuncs key frame data input returnLen
          = .ok (.fail .userLevelError code) []) ∧
      (g frame input data = .ok (.error (.runtime code)) →
        wrapAsyncFn asyncHostFuncs key frame data input returnLen
          = .ok (.fail .wasm code) [])) := by
  constructor
  · intro hf
    constructor
    · intro hres
      simp [wrapFn, hf, hres]
    · intro hres
      simp [wrapFn, hf, hres]
  · intro hg
    constructor
    · intro hres
      simp [wrapAsyncFn, hg, hres]
    · intro hres
      simp [wrapAsyncFn, hg, hres]

/-- Witness for C4: user code 2 ↦ (user-level, 2); runtime code 9 ↦
(WASM, 9), on both trampolines. -/
theorem wrap_fn_error_translation_witness :
    wrapFn [(1, fun _ _ _ => .error (.user 2))] 1 0 0 [] 0
      = .ok (.fail .userLevelError 2) [] ∧
    wrapFn [(1, fun _ _ _ => .error (.runtime 9))] 1 0 0 [] 0
      = .ok (.fail .wasm 9) [] ∧
    wrapAsyncFn [(1, fun _ _ _ => .ok (.error (.user 2)))] 1 0 0 [] 0
      = .ok (.fail .userLevelError 2) [] ∧
    wrapAsyncFn [(1, fun _ _ _ => .ok (.error (.runtime 9)))] 1 0 0 [] 0
      = .ok (.fail .wasm 9) [] :=
  ⟨((wrap_fn_error_translation [(1, fun _ _ _ => .error (.user 2))] [] 1 0 0 []
      0 (fun _ _ _ => .error (.user 2)) (fun _ _ _ => .error ()) 2).1 rfl).1 rfl,
   ((wrap_fn_error_translation [(1, fun _ _ _ => .error (.runtime 9))] [] 1 0 0
      [] 0 (fun _ _ _ => .error (.runtime 9)) (fun _ _ _ => .error ()) 9).1
      rfl).2 rfl,
   ((wrap_fn_error_translation [] [(1, fun _ _ _ => .ok (.error (.user 2)))] 1
      0 0 [] 0 (fun _ _ _ => .ok []) (fun _ _ _ => .ok (.error (.user 2))) 2).2
      rfl).1 rfl,
   ((wrap_fn_error_translation [] [(1, fun _ _ _ => .ok (.error (.runtime 9)))]
      1 0 0 [] 0 (fun _ _ _ => .ok []) (fun _ _ _ => .ok (.error (.runtime 9)))
      9).2 rfl).2 rfl⟩

/-- C5: when a dispatched closure returns successfully, a return-count
mismatch aborts the dispatch (no success result), and a matching count
writes the returned values into the return buffer in order and returns the
native success result (code 0).  Stated for `wrap_fn` and for the identical
check in `wrap_async_fn`. -/
theorem wrap_fn_return_arity
    (hostFuncs : List (Nat × HostClosure))
    (asyncHostFuncs : List (Nat × AsyncHostClosure))
    (key frame data : Nat) (input : List Nat) (returnLen : Nat)
    (f : HostClosure) (g : AsyncHostClosure) (rets : List Nat) :
    (lookupAssoc hostFuncs key = some f →
      f frame input data = .ok rets →
      (rets.length ≠ returnLen →
        wrapFn hostFuncs key frame data input returnLen
          = .abort returnLen rets.length) ∧
      (rets.length = returnLen →
        wrapFn hostFuncs key frame data input returnLen
          = .ok .success rets)) ∧
    (lookupAssoc asyncHostFuncs key = some g →
      g frame input data = .ok (.ok rets) →
      (rets.length ≠ returnLen →
        wrapAsyncFn asyncHostFuncs key frame data input returnLen
          = .abort returnLen rets.length) ∧
      (rets.length = returnLen →
        wrapAsyncFn asyncHostFuncs key frame data input returnLen
          = .ok .success rets)) := by
  constructor
  · intro hf hres
    constructor
    · intro hne
      simp [wrapFn, hf, hres, hne]
    · intro heq
      simp [wrapFn, hf, hres, heq]
  · intro hg hres
    constructor
    · intro hne
      simp [wrapAsyncFn, hg, hres, hne]
    · intro heq
      simp [wrapAsyncFn, hg, hres, heq]

/-- Witness for C5: a closure declared with 1 return slot that returns 2 or 0
values aborts; returning exactly 1 value succeeds with the value written. -/
theorem wrap_fn_return_arity_witness :
    wrapFn [(1, fun _ _ _ => .ok [10, 20])] 1 0 0 [] 1 = .abort 1 2 ∧
    wrapFn [(1, fun _ _ _ => .ok [])] 1 0 0 [] 1 = .abort 1 0 ∧
    wrapFn [(1, fun _ _ _ => .ok [30])] 1 0 0 [] 1 = .ok .success [30] ∧
    wrapAsyncFn [(1, fun _ _ _ => .ok (.ok [10, 20]))] 1 0 0 [] 1
      = .abort 1 2 :=
  ⟨((wrap_fn_return_arity [(1, fun _ _ _ => .ok [10, 20])] [] 1 0 0 [] 1
      (fun _ _ _ => .ok [10, 20]) (fun _ _ _ => .ok (.ok [])) [10, 20]).1 rfl
      rfl).1 (by decide),
   ((wrap_fn_return_arity [(1, fun _ _ _ => .ok [])] [] 1 0 0 [] 1
      (fun _ _ _ => .ok []) (fun _ _ _ => .ok (.ok [])) []).1 rfl rfl).1
      (by decide),
   ((wrap_fn_return_arity [(1, fun _ _ _ => .ok [30])] [] 1 0 0 [] 1
      (fun _ _ _ => .ok [30]) (fun _ _ _ => .ok (.ok [])) [30]).1 rfl rfl).2
      rfl,
   ((wrap_fn_return_arity [] [(1, fun _ _ _ => .ok (.ok [10, 20]))] 1 0 0 [] 1
      (fun _ _ _ => .ok []) (fun _ _ _ => .ok (.ok [10, 20])) [10, 20]).2 rfl
      rfl).1 (by decide)⟩

/-! ### Claim theorems: lock ordering in the trampolines -/

/-- C8 counterexample: in both trampolines' key-found path the registry read
lock is released only AFTER the per-closure lock has been acquired (the
source acquires `real_fn.lock()` and only then runs `drop(map_host_func)`),
so the claimed ordering — read lock released before the per-closure lock is
acquired — fails on the recorded event trace. -/
theorem wrap_fn_lock_order_cex :
    ¬ (firstIdx (wrapFnHitTrace 42) .releaseRead
        < firstIdx (wrapFnHitTrace 42) .acquireClosureLock) ∧
    ¬ (firstIdx (wrapAsyncFnHitTrace 42) .releaseRead
        < firstIdx (wrapAsyncFnHitTrace 42) .acquireClosureLock) := by
  decide

/-- C8 (amended): in every key-found execution of either trampoline the
per-closure lock is acquired while the registry read lock is still held, and
the read lock is then released before the closure is invoked — so the read
lock is never held during user-closure execution. -/
theorem wrap_fn_lock_order (k : Nat) :
    (firstIdx (wrapFnHitTrace k) .acquireClosureLock
        < firstIdx (wrapFnHitTrace k) .releaseRead ∧
     firstIdx (wrapFnHitTrace k) .releaseRead
        < firstIdx (wrapFnHitTrace k) .invokeClosure) ∧
    (firstIdx (wrapAsyncFnHitTrace k) .acquireClosureLock
        < firstIdx (wrapAsyncFnHitTrace k) .releaseRead ∧
     firstIdx (wrapAsyncFnHitTrace k) .releaseRead
        < firstIdx (wrapAsyncFnHitTrace k) .invokeClosure) := by
  simp [wrapFnHitTrace, wrapAsyncFnHitTrace, firstIdx]

end WasmEdgeSys

namespace WasmEdgeSys

/-! ### Claim theorems: registration and lifecycle -/

/-- C1: in both registration paths (`Function::create_with_data`,
`ImportModule::add_func_new`) the `HOST_FUNCS` write lock is held across the
whole check-then-insert sequence (the trace between `acquireWrite` and
`releaseWrite` consists solely of key checks and the key insert); the key a
registration hands out is absent from the registry at insertion time and
present afterwards; any serialized sequence of N registrations (which is what
the write lock reduces concurrent registrations to) yields pairwise-distinct
keys that are all still present in the final registry; and removing one key
leaves every other key's membership unchanged. -/
theorem registration_uniqueness :
    (∀ (draws : List Nat) (m : List (Nat × Nat)),
        createWithDataTrace draws m
          = .acquireWrite :: (genKeyTrace draws m ++ [.releaseWrite]) ∧
        addFuncNewTrace draws m
          = .acquireWrite :: (genKeyTrace draws m ++ [.releaseWrite]) ∧
        ∀ e ∈ genKeyTrace draws m,
          (∃ k, e = LockEvent.checkKey k) ∨ (∃ k, e = LockEvent.insertKey k)) ∧
    (∀ (draws : List Nat) (engineCtx realFn : Nat) (dOwn : Bool)
        (st st' : BridgeState) (res : Except WasmEdgeError Function),
        Function.create_with_data draws engineCtx realFn dOwn st
          = some (st', res) →
        ∃ key, genKey draws st.hostFuncs = some key ∧
          containsKey st.hostFuncs key = false ∧
          containsKey st'.hostFuncs key = true) ∧
    (∀ (mo : ImportModule) (name : String) (draws : List Nat)
        (engineCtx realFn : Nat) (st st' : BridgeState)
        (res : Except WasmEdgeError ImportModule),
        mo.add_func_new name draws engineCtx realFn st = some (st', res) →
        ∃ key, genKey draws st.hostFuncs = some key ∧
          containsKey st.hostFuncs key = false ∧
          containsKey st'.hostFuncs key = true) ∧
    (∀ (jobs : List (List Nat × Nat)) (m m' : List (Nat × Nat))
        (ks : List Nat),
        registerMany jobs m = some (m', ks) →
        ks.Pairwise (· ≠ ·) ∧ (∀ k ∈ ks, containsKey m' k = true)) ∧
    (∀ (m : List (Nat × Nat)) (k k' : Nat), k ≠ k' →
        containsKey (removeAssoc k' m) k = containsKey m k) := by
  refine ⟨?_, ?_, ?_, ?_, ?_⟩
  · intro draws m
    exact ⟨rfl, rfl, genKeyTrace_keyOps draws m⟩
  · intro draws engineCtx realFn dOwn st st' res h
    cases hg : genKey draws st.hostFuncs with
    | none => simp [Function.create_with_data, hg] at h
    | some key =>
      refine ⟨key, rfl, genKey_fresh _ _ _ hg, ?_⟩
      simp only [Function.create_with_data, hg] at h
      split_ifs at h <;>
        · simp only [Option.some.injEq, Prod.mk.injEq] at h
          obtain ⟨h1, _⟩ := h
          subst h1
          rw [containsKey_insertAssoc]
          simp
  · intro mo name draws engineCtx realFn st st' res h
    cases hg : genKey draws st.hostFuncs with
    | none => simp [ImportModule.add_func_new, hg] at h
    | some key =>
      refine ⟨key, rfl, genKey_fresh _ _ _ hg, ?_⟩
      simp only [ImportModule.add_func_new, hg] at h
      split_ifs at h <;>
        · simp only [Option.some.injEq, Prod.mk.injEq] at h
          obtain ⟨h1, _⟩ := h
          subst h1
          rw [containsKey_insertAssoc]
          simp
  · intro jobs m m' ks h
    obtain ⟨_, hpw, hmem, _⟩ := registerMany_spec jobs m m' ks h
    exact ⟨hpw, hmem⟩
  · intro m k k' hne
    rw [containsKey_removeAssoc, if_neg (fun h => hne h.symm)]

/-- Witness for C1: a fresh-key registration from the empty state, a
two-registration sequence with a forced retry (the second job first draws the
already-taken key 5, then 6), and preservation of key 6 under removal of
key 5. -/
theorem registration_uniqueness_witness :
    (∃ key, genKey [7] emptyBridge.hostFuncs = some key ∧
      containsKey emptyBridge.hostFuncs key = false ∧
      containsKey (BridgeState.hostFuncs ⟨[(7, 3)], [], [(9, 7)]⟩) key
        = true) ∧
    ([5, 6] : List Nat).Pairwise (· ≠ ·) ∧
    containsKey [(5, 0), (6, 1)] 6 = true ∧
    containsKey (removeAssoc 5 [(5, 0), (6, 1)]) 6
      = containsKey [(5, 0), (6, 1)] 6 :=
  ⟨registration_uniqueness.2.1 [7] 9 3 false emptyBridge
      ⟨[(7, 3)], [], [(9, 7)]⟩ (.ok ⟨9, false, false⟩) rfl,
   (registration_uniqueness.2.2.2.1 [([5], 0), ([5, 6], 1)] []
      [(5, 0), (6, 1)] [5, 6] rfl).1,
   (registration_uniqueness.2.2.2.1 [([5], 0), ([5, 6], 1)] []
      [(5, 0), (6, 1)] [5, 6] rfl).2 6 (by simp),
   registration_uniqueness.2.2.2.2 [(5, 0), (6, 1)] 6 5 (by decide)⟩

/-- C2: for an unregistered (bridge-created) handle, a drop at shared count
above 1 leaves the registries and the footprint table untouched and frees
nothing; and the concrete clone/drop scenario — construct from the empty
state (registry size 1), clone twice and drop twice (size still 1), final
drop (size 0, footprint gone, owned data freed, context deleted). -/
theorem function_drop_refcount :
    (∀ (h : Function) (n : Nat) (st : BridgeState),
        h.registered = false → 1 < n →
        Function.drop h n st = some ⟨st, false, false⟩) ∧
    (∀ (d : Nat) (ds : List Nat) (engineCtx realFn : Nat) (dOwn : Bool),
        engineCtx ≠ 0 →
        ∃ (st1 : BridgeState) (h : Function),
          Function.create_with_data (d :: ds) engineCtx realFn dOwn
            emptyBridge = some (st1, .ok h) ∧
          st1.hostFuncs.length = 1 ∧
          st1.footprints.length = 1 ∧
          runOps h [.cloneOp, .cloneOp, .dropOp, .dropOp] (1, st1)
            = some (1, st1) ∧
          ∃ eff, Function.drop h 1 st1 = some eff ∧
            eff.st.hostFuncs.length = 0 ∧
            eff.st.footprints.length = 0 ∧
            eff.freedData = dOwn ∧
            eff.deletedCtx = true) := by
  constructor
  · intro h n st hreg hn
    have hcond : ¬ (h.registered = false ∧ n = 1) := by
      rintro ⟨_, h1⟩
      omega
    simp [Function.drop, hcond]
  · intro d ds engineCtx realFn dOwn hce
    refine ⟨⟨[(d, realFn)], [], [(engineCtx, d)]⟩,
      ⟨engineCtx, false, dOwn⟩, ?_, rfl, rfl, ?_, ?_⟩
    · simp [Function.create_with_data, genKey, containsKey, lookupAssoc,
        insertAssoc, emptyBridge, hce]
    · simp [runOps, Function.drop]
    · refine ⟨⟨emptyBridge, dOwn, true⟩, ?_, rfl, rfl, rfl, rfl⟩
      simp [Function.drop, lookupAssoc, removeAssoc, containsKey,
        emptyBridge, List.filter, hce]

/-- Witness for C2: the scenario instantiated at draw 3, context address 10,
closure id 4, owned user data. -/
theorem function_drop_refcount_witness :
    Function.drop ⟨10, false, true⟩ 3 emptyBridge
      = some ⟨emptyBridge, false, false⟩ ∧
    (∃ (st1 : BridgeState) (h : Function),
      Function.create_with_data [3] 10 4 true emptyBridge
        = some (st1, .ok h) ∧
      st1.hostFuncs.length = 1 ∧
      st1.footprints.length = 1 ∧
      runOps h [.cloneOp, .cloneOp, .dropOp, .dropOp] (1, st1)
        = some (1, st1) ∧
      ∃ eff, Function.drop h 1 st1 = some eff ∧
        eff.st.hostFuncs.length = 0 ∧
        eff.st.footprints.length = 0 ∧
        eff.freedData = true ∧
        eff.deletedCtx = true) :=
  ⟨function_drop_refcount.1 ⟨10, false, true⟩ 3 emptyBridge rfl (by decide),
   function_drop_refcount.2 3 [] 10 4 true (by decide)⟩

/-- C6: a handle built by name lookup (`Instance::get_func`) carries
`registered: true`; dropping any registered handle, at any reference count
(including the last reference), removes nothing from the registries or the
footprint table, frees no user data and deletes no native context; only the
teardown of the originating unregistered handle (count 1, footprint present)
performs those removals. -/
theorem registered_handle_drop_noop :
    (∀ (findCtx : Nat) (name : String) (h : Function),
        Instance.get_func findCtx name = .ok h →
        h.registered = true ∧ h.ctx = findCtx) ∧
    (∀ (h : Function) (n : Nat) (st : BridgeState),
        h.registered = true →
        Function.drop h n st = some ⟨st, false, false⟩) ∧
    (∀ (h : Function) (st : BridgeState) (key : Nat),
        h.registered = false →
        lookupAssoc st.footprints h.ctx = some key →
        ∃ eff, Function.drop h 1 st = some eff ∧
          containsKey eff.st.footprints h.ctx = false ∧
          containsKey eff.st.hostFuncs key = false ∧
          containsKey eff.st.asyncHostFuncs key = false ∧
          eff.freedData = h.dataOwner ∧
          eff.deletedCtx = (h.ctx != 0)) := by
  refine ⟨?_, ?_, ?_⟩
  · intro findCtx name h hok
    by_cases hz : findCtx = 0
    · simp [Instance.get_func, hz] at hok
    · simp only [Instance.get_func, if_neg hz, Except.ok.injEq] at hok
      subst hok
      exact ⟨rfl, rfl⟩
  · intro h n st hreg
    have hcond : ¬ (h.registered = false ∧ n = 1) := by
      rintro ⟨h0, _⟩
      simp [hreg] at h0
    simp [Function.drop, hcond]
  · intro h st key hreg hlook
    refine ⟨⟨⟨(if containsKey st.hostFuncs key then removeAssoc key st.hostFuncs
          else st.hostFuncs),
        (if containsKey st.asyncHostFuncs key then
          removeAssoc key st.asyncHostFuncs else st.asyncHostFuncs),
        removeAssoc h.ctx st.footprints⟩,
      h.dataOwner, h.ctx != 0⟩, ?_, ?_, ?_, ?_, rfl, rfl⟩
    · simp [Function.drop, hreg, hlook]
    · rw [containsKey_removeAssoc]
      simp
    · by_cases hk : containsKey st.hostFuncs key = true
      · simp only [hk, if_true, containsKey_removeAssoc, if_pos rfl]
      · simp only [hk, if_false]
        simpa using hk
    · by_cases hk : containsKey st.asyncHostFuncs key = true
      · simp only [hk, if_true, containsKey_removeAssoc, if_pos rfl]
      · simp only [hk, if_false]
        simpa using hk

/-- Witness for C6: a handle looked up at context address 5 is registered;
dropping it at count 1 against a non-trivial bridge state changes nothing;
the owning handle at the same address does tear the entries down. -/
theorem registered_handle_drop_noop_witness :
    ((⟨5, true, false⟩ : Function).registered = true ∧
      (⟨5, true, false⟩ : Function).ctx = 5) ∧
    Function.drop ⟨5, true, false⟩ 1 ⟨[(7, 0)], [], [(5, 7)]⟩
      = some ⟨⟨[(7, 0)], [], [(5, 7)]⟩, false, false⟩ ∧
    (∃ eff, Function.drop ⟨5, false, true⟩ 1 ⟨[(7, 0)], [], [(5, 7)]⟩
        = some eff ∧
      containsKey eff.st.footprints (Function.ctx ⟨5, false, true⟩) = false ∧
      containsKey eff.st.hostFuncs 7 = false ∧
      containsKey eff.st.asyncHostFuncs 7 = false ∧
      eff.freedData = (Function.dataOwner ⟨5, false, true⟩) ∧
      eff.deletedCtx = ((Function.ctx ⟨5, false, true⟩) != 0)) :=
  ⟨registered_handle_drop_noop.1 5 "add" ⟨5, true, false⟩ rfl,
   registered_handle_drop_noop.2.1 ⟨5, true, false⟩ 1
      ⟨[(7, 0)], [], [(5, 7)]⟩ rfl,
   registered_handle_drop_noop.2.2 ⟨5, false, true⟩
      ⟨[(7, 0)], [], [(5, 7)]⟩ 7 rfl rfl⟩

/-- C7 counterexample: when the engine returns a null context, both creation
paths do return the typed creation error, but they leave the freshly
generated key in `HOST_FUNCS` (registry size 1, not 0) and a footprint entry
for address 0 in `HOST_FUNC_FOOTPRINTS` — the claimed absence of stale
entries is false. -/
theorem create_failure_stale_cex :
    (Function.create_with_data [7] 0 3 false emptyBridge).map
        (fun p => (p.2, p.1.hostFuncs.length, p.1.footprints.length))
      = some (.error (.func .create), 1, 1) ∧
    ((⟨1, false, "extern", []⟩ : ImportModule).add_func_new "f" [7] 0 3
        emptyBridge).map
        (fun p => (p.2, p.1.hostFuncs.length, p.1.footprints.length))
      = some (.error (.func .create), 1, 1) :=
  ⟨rfl, rfl⟩

/-- C7 (amended): a creation against a null engine context returns the typed
creation error `WasmEdgeError::Func(FuncError::Create)`, but the freshly
inserted key stays in the closure registry and a footprint entry mapping
address 0 to that key stays in the footprint table (no cleanup happens), in
both `Function::create_with_data` and `ImportModule::add_func_new`. -/
theorem create_failure_stale_entries :
    (∀ (draws : List Nat) (realFn : Nat) (dOwn : Bool) (st st' : BridgeState)
        (res : Except WasmEdgeError Function),
        Function.create_with_data draws 0 realFn dOwn st = some (st', res) →
        res = .error (.func .create) ∧
        ∃ key, genKey draws st.hostFuncs = some key ∧
          st'.hostFuncs = insertAssoc key realFn st.hostFuncs ∧
          st'.footprints = insertAssoc 0 key st.footprints ∧
          containsKey st'.hostFuncs key = true ∧
          containsKey st'.footprints 0 = true) ∧
    (∀ (mo : ImportModule) (name : String) (draws : List Nat) (realFn : Nat)
        (st st' : BridgeState) (res : Except WasmEdgeError ImportModule),
        mo.add_func_new name draws 0 realFn st = some (st', res) →
        res = .error (.func .create) ∧
        ∃ key, genKey draws st.hostFuncs = some key ∧
          st'.hostFuncs = insertAssoc key realFn st.hostFuncs ∧
          st'.footprints = insertAssoc 0 key st.footprints ∧
          containsKey st'.hostFuncs key = true ∧
          containsKey st'.footprints 0 = true) := by
  constructor
  · intro draws realFn dOwn st st' res h
    cases hg : genKey draws st.hostFuncs with
    | none => simp [Function.create_with_data, hg] at h
    | some key =>
      simp only [Function.create_with_data, hg] at h
      rw [if_true] at h
      simp only [Option.some.injEq, Prod.mk.injEq] at h
      obtain ⟨h1, h2⟩ := h
      subst h1
      refine ⟨h2.symm, key, rfl, rfl, rfl, ?_, ?_⟩
      · rw [containsKey_insertAssoc]
        simp
      · rw [containsKey_insertAssoc]
        simp
  · intro mo name draws realFn st st' res h
    cases hg : genKey draws st.hostFuncs with
    | none => simp [ImportModule.add_func_new, hg] at h
    | some key =>
      simp only [ImportModule.add_func_new, hg] at h
      rw [if_true] at h
      simp only [Option.some.injEq, Prod.mk.injEq] at h
      obtain ⟨h1, h2⟩ := h
      subst h1
      refine ⟨h2.symm, key, rfl, rfl, rfl, ?_, ?_⟩
      · rw [containsKey_insertAssoc]
        simp
      · rw [containsKey_insertAssoc]
        simp

/-- Witness for C7 (amended): the failed creation at draw 7 from the empty
state leaves key 7 registered and footprint (0 → 7) behind. -/
theorem create_failure_stale_entries_witness :
    ((Except.error (.func .create) : Except WasmEdgeError Function)
        = .error (.func .create) ∧
      ∃ key, genKey [7] emptyBridge.hostFuncs = some key ∧
        BridgeState.hostFuncs ⟨[(7, 3)], [], [(0, 7)]⟩
          = insertAssoc key 3 emptyBridge.hostFuncs ∧
        BridgeState.footprints ⟨[(7, 3)], [], [(0, 7)]⟩
          = insertAssoc 0 key emptyBridge.footprints ∧
        containsKey (BridgeState.hostFuncs ⟨[(7, 3)], [], [(0, 7)]⟩) key
          = true ∧
        containsKey (BridgeState.footprints ⟨[(7, 3)], [], [(0, 7)]⟩) 0
          = true) :=
  create_failure_stale_entries.1 [7] 3 false emptyBridge
    ⟨[(7, 3)], [], [(0, 7)]⟩ (.error (.func .create)) rfl

end WasmEdgeSys

namespace WasmEdgeSys

/-! ### Claim theorems: export-name enumeration -/

theorem exportNamesAux (l : List String) :
    ((if l.length > 0 then some l else none) = none ↔ l.length = 0) ∧
    (∀ v, (if l.length > 0 then some l else none) = some v →
      v.length = l.length ∧ v ≠ []) := by
  cases l <;> simp

/-- C10: every exported-name enumeration (`func_names`, `table_names`,
`mem_names`, `global_names`, on `Instance` and on `WasiModule`) returns
`None` exactly when the matching count (`func_len`, `table_len`, `mem_len`,
`global_len`) is 0, and otherwise `Some` of a vector whose length equals
that count — in particular never `Some` of an empty vector. -/
theorem export_names_len (inst : Instance) (w : WasiModule) :
    ((inst.func_names = none ↔ inst.func_len = 0) ∧
      ∀ v, inst.func_names = some v → v.length = inst.func_len ∧ v ≠ []) ∧
    ((inst.table_names = none ↔ inst.table_len = 0) ∧
      ∀ v, inst.table_names = some v → v.length = inst.table_len ∧ v ≠ []) ∧
    ((inst.mem_names = none ↔ inst.mem_len = 0) ∧
      ∀ v, inst.mem_names = some v → v.length = inst.mem_len ∧ v ≠ []) ∧
    ((inst.global_names = none ↔ inst.global_len = 0) ∧
      ∀ v, inst.global_names = some v → v.length = inst.global_len ∧ v ≠ []) ∧
    ((w.func_names = none ↔ w.func_len = 0) ∧
      ∀ v, w.func_names = some v → v.length = w.func_len ∧ v ≠ []) ∧
    ((w.table_names = none ↔ w.table_len = 0) ∧
      ∀ v, w.table_names = some v → v.length = w.table_len ∧ v ≠ []) ∧
    ((w.mem_names = none ↔ w.mem_len = 0) ∧
      ∀ v, w.mem_names = some v → v.length = w.mem_len ∧ v ≠ []) ∧
    ((w.global_names = none ↔ w.global_len = 0) ∧
      ∀ v, w.global_names = some v → v.length = w.global_len ∧ v ≠ []) :=
  ⟨exportNamesAux inst.funcExports, exportNamesAux inst.tableExports,
   exportNamesAux inst.memExports, exportNamesAux inst.globalExports,
   exportNamesAux w.funcExports, exportNamesAux w.tableExports,
   exportNamesAux w.memExports, exportNamesAux w.globalExports⟩

/-- Witness for C10: an instance exporting one function and no tables, and a
WASI module exporting nothing. -/
theorem export_names_len_witness :
    ((["f"] : List String).length
        = Instance.func_len ⟨["f"], [], [], []⟩ ∧
      (["f"] : List String) ≠ []) ∧
    (Instance.table_names ⟨["f"], [], [], []⟩ = none ↔
      Instance.table_len ⟨["f"], [], [], []⟩ = 0) ∧
    (WasiModule.func_names ⟨[], [], [], []⟩ = none ↔
      WasiModule.func_len ⟨[], [], [], []⟩ = 0) :=
  ⟨(export_names_len ⟨["f"], [], [], []⟩ ⟨[], [], [], []⟩).1.2 ["f"] rfl,
   (export_names_len ⟨["f"], [], [], []⟩ ⟨[], [], [], []⟩).2.1.1,
   (export_names_len ⟨["f"], [], [], []⟩ ⟨[], [], [], []⟩).2.2.2.2.1.1⟩

end WasmEdgeSys

namespace WasmEdgeMacro

/-! ### Claim theorems: the signature rewriter -/

/-- C9 counterexample: the claim quantifies over both cited rewriters, but
`sys_expand_host_func` rejects every 2-parameter declaration (which the claim
says must produce the fixed wrapper) and accepts a 3-parameter declaration
whose third parameter has an unsupported shape (which the claim says must
abort), re-emitting it unchanged.  (`expand_host_func` does behave as the
claim describes on the same inputs.) -/
theorem sys_rewriter_shape_cex :
    sys_expand_host_func ⟨[.otherTy, .otherTy]⟩
      = .error "Invalid numbers of host function arguments" ∧
    sys_expand_host_func ⟨[.otherTy, .otherTy, .otherTy]⟩ = .ok .passthrough ∧
    expand_host_func ⟨[.otherTy, .otherTy]⟩ = .ok (.fixedWrapper none) :=
  ⟨rfl, rfl, rfl⟩

/-- C9 (amended): `expand_host_func` behaves as the claim states — the
2-parameter form yields the fixed wrapper that ignores the data pointer; the
3-parameter form yields the dereferencing wrapper exactly for third-parameter
shapes `&T`, `&mut T`, `Option<&T>`, `Option<&mut T>`, and aborts with the
panic message for any other shape or parameter count.  `sys_expand_host_func`
instead accepts exactly the 3-parameter form, re-emitting the declaration
unchanged without inspecting the third parameter's type, and aborts for every
other parameter count, including 2. -/
theorem signature_rewriter_shapes :
    (∀ t1 t2 : RsTy, expand_host_func ⟨[t1, t2]⟩ = .ok (.fixedWrapper none)) ∧
    (∀ t1 t2 elem : RsTy,
        expand_host_func ⟨[t1, t2, .reference elem]⟩
          = .ok (.fixedWrapper (some elem))) ∧
    (∀ (t1 t2 elem : RsTy) (segs : List PathSegment)
        (gargs : List GenericArg),
        expand_host_func ⟨[t1, t2,
            .path (segs ++ [.mk "Option"
              (.angleBracketed (gargs ++ [.typeArg (.reference elem)]))])]⟩
          = .ok (.fixedWrapper (some elem))) ∧
    (∀ (t1 t2 t3 : RsTy) (e : String),
        extractDataPtrTy t3 = .error e →
        expand_host_func ⟨[t1, t2, t3]⟩ = .error e) ∧
    (∀ t1 t2 : RsTy,
        expand_host_func ⟨[t1, t2, .otherTy]⟩
          = .error "Unsupported syn::Type type") ∧
    (∀ ps : List RsTy, ps.length ≠ 2 → ps.length ≠ 3 →
        expand_host_func ⟨ps⟩
          = .error "Invalid numbers of host function arguments") ∧
    (∀ t1 t2 t3 : RsTy,
        sys_expand_host_func ⟨[t1, t2, t3]⟩ = .ok .passthrough) ∧
    (∀ ps : List RsTy, ps.length ≠ 3 →
        sys_expand_host_func ⟨ps⟩
          = .error "Invalid numbers of host function arguments") := by
  refine ⟨?_, ?_, ?_, ?_, ?_, ?_, ?_, ?_⟩
  · intro t1 t2
    rfl
  · intro t1 t2 elem
    rfl
  · intro t1 t2 elem segs gargs
    simp [expand_host_func, extractDataPtrTy, List.getLast?_concat]
  · intro t1 t2 t3 e he
    simp [expand_host_func, he]
  · intro t1 t2
    rfl
  · intro ps h2 h3
    match ps with
    | [] => rfl
    | [_] => rfl
    | [_, _] => exact absurd rfl h2
    | [_, _, _] => exact absurd rfl h3
    | _ :: _ :: _ :: _ :: _ => rfl
  · intro t1 t2 t3
    rfl
  · intro ps h3
    match ps with
    | [] => rfl
    | [_] => rfl
    | [_, _] => rfl
    | [_, _, _] => exact absurd rfl h3
    | _ :: _ :: _ :: _ :: _ => rfl

/-- Witness for C9 (amended): an unsupported third-parameter shape aborts
`expand_host_func`; a 1-parameter declaration aborts both rewriters. -/
theorem signature_rewriter_shapes_witness :
    expand_host_func ⟨[.otherTy, .otherTy, .otherTy]⟩
      = .error "Unsupported syn::Type type" ∧
    expand_host_func ⟨[.otherTy]⟩
      = .error "Invalid numbers of host function arguments" ∧
    sys_expand_host_func ⟨[.otherTy]⟩
      = .error "Invalid numbers of host function arguments" :=
  ⟨signature_rewriter_shapes.2.2.2.1 .otherTy .otherTy .otherTy
      "Unsupported syn::Type type" rfl,
   signature_rewriter_shapes.2.2.2.2.2.1 [.otherTy]
      (by decide) (by decide),
   signature_rewriter_shapes.2.2.2.2.2.2.2 [.otherTy] (by decide)⟩

end WasmEdgeMacro
